import Mathlib

/-
Verification of the CPTAC proteomics table-normalization pipeline.

The Lean definitions below are a shallow embedding of the Python sources
cbio_proteomics.py, cbio_maxquant.py, ms2cbioportal.py and
process_proteome.py.  Tables are modelled as lists of labelled columns
(or labelled rows, for the row-indexed proteomic ruler), cell values as
Option Rat where none stands for a pandas missing value (NaN), and
fallible pandas operations as Except values.
-/

namespace CPTAC

/-- A pandas cell: some q is a finite numeric value, none is NaN/missing. -/
abbrev Cell := Option ℚ

/-- A labelled table: each entry is a label (column name, or row index
label for row-indexed operations) together with the cell values along
the other axis, in order. -/
abbrev Table := List (String × List Cell)

/-- Errors raised by the pandas-level operations modelled here. -/
inductive PdError where
  /-- ValueError raised by MSTable.clean_columns when the sample regex
  matches no column. -/
  | noMatchingColumns
  /-- ValueError raised by MSTable.proteomic_ruler on negative input. -/
  | negativeValue
  /-- AttributeError raised when a nonexistent DataFrame method is
  accessed (MSTable.average_duplicates calls nanmean). -/
  | attributeError
  deriving DecidableEq, Repr

/-- Does the character list start with the given pattern list. -/
def listStartsWith : List Char → List Char → Bool
  | _, [] => true
  | [], _ :: _ => false
  | c :: cs, p :: ps => c == p && listStartsWith cs ps

/-- Does the character list contain the pattern list as a contiguous
sublist.  Used to model the Python regex searches of the form
str.contains applied with plain-text alternatives. -/
def listContainsSub : List Char → List Char → Bool
  | [], pat => listStartsWith [] pat
  | c :: cs, pat => listStartsWith (c :: cs) pat || listContainsSub cs pat

/-- Substring test on strings: models re.search of a literal pattern,
hence pandas Series.str.contains with a single literal alternative. -/
def strContains (s pat : String) : Bool := listContainsSub s.data pat.data

/-- Split a character list at every occurrence of the separator,
keeping empty chunks, exactly like the Python str.split method with a
one-character separator.  The result is always nonempty. -/
def splitOnChar (sep : Char) : List Char → List (List Char)
  | [] => [[]]
  | c :: cs =>
    let r := splitOnChar sep cs
    if c == sep then [] :: r
    else
      match r with
      | [] => [[c]]
      | h :: t => (c :: h) :: t

/-- Python str.split with a one-character separator. -/
def pySplit (sep : Char) (s : String) : List String :=
  (splitOnChar sep s.data).map (fun l => String.mk l)

/-- One row of a MaxQuant proteinGroups table, restricted to the three
columns the row filter reads.  A none field is a pandas null. -/
structure MQProteomeRow where
  protein_ids : Option String
  gene_names : Option String
  q_value : Option ℚ
  deriving DecidableEq, Repr

/-- Drop test on the Protein IDs field: Series.str.contains with the
pattern REV|CON and na=True, so a null field also counts as a match. -/
def revConDrop : Option String → Bool
  | some s => strContains s "REV" || strContains s "CON"
  | none => true

/-- Keep test from the comparison df with Q-value lt 0.05: a NaN
Q-value compares false in pandas, so the row is dropped. -/
def qKeep : Option ℚ → Bool
  | some q => decide (q < 1 / 20)
  | none => false

/-- Row Filter for the maxquant_proteome pipeline.  Embeds
MaxQuantProteomeTable.clean_rows (ms2cbioportal.py lines 430 to 445)
and the identical filter block of load_transform_proteome
(cbio_maxquant.py lines 11 to 13): drop rows whose Protein IDs field
matches REV or CON (nulls included), then rows with a null Gene names
field, then rows whose Q-value is not strictly below 0.05. -/
def clean_rows (rows : List MQProteomeRow) : List MQProteomeRow :=
  ((rows.filter (fun r => !revConDrop r.protein_ids)).filter
      (fun r => r.gene_names.isSome)).filter
    (fun r => qKeep r.q_value)

/-- Pattern Column Selector.  Embeds MSTable.clean_columns
(ms2cbioportal.py lines 116 to 133): keep the columns whose name the
sample regex matches, in order; raise ValueError when none matches.
The compiled regex is modelled as the Boolean predicate it denotes on
column names. -/
def clean_columns (regex : String → Bool) (t : Table) : Except PdError Table :=
  let sample_columns := t.filter (fun c => regex c.1)
  if sample_columns.isEmpty then .error .noMatchingColumns
  else .ok sample_columns

/-- Number of columns of the table carrying the given label.  Embeds
the duplicated tests on df.columns. -/
def countLabel (t : Table) (l : String) : ℕ :=
  t.countP (fun c => c.1 == l)

/-- Number of rows of the table, read off the first column, matching
the shared index of the pandas DataFrame. -/
def nRows (t : Table) : ℕ :=
  (t.head?.map (fun c => c.2.length)).getD 0

/-- The distinct labels that occur on more than one column:
list(set(df.columns[df.columns.duplicated(keep=False)])).  The Python
set iteration order is unspecified; dedup fixes one order. -/
def dupLabels (t : Table) : List String :=
  ((t.filter (fun c => decide (2 ≤ countLabel t c.1))).map (fun c => c.1)).dedup

/-- Collapsed column for a duplicated label: df[col].mean(axis=1), the
per-row mean of the non-missing values across the columns sharing the
label; a row with no value present stays missing. -/
def collapseCol (t : Table) (l : String) : List Cell :=
  let cols := (t.filter (fun c => c.1 == l)).map (fun c => c.2)
  (List.range (nRows t)).map (fun i =>
    let vs := cols.filterMap (fun col => (col.get? i).bind id)
    if vs.isEmpty then none else some (vs.sum / vs.length))

/-- Duplicate Collapser.  Embeds average_duplicates (cbio_proteomics.py
lines 64 to 71, identical in cbio_maxquant.py): keep the columns whose
label occurs exactly once, in order, then append one mean column per
duplicated label. -/
def average_duplicates (t : Table) : Table :=
  let nondup := t.filter (fun c => countLabel t c.1 == 1)
  nondup ++ (dupLabels t).map (fun l => (l, collapseCol t l))

/-- Call of the nonexistent DataFrame method nanmean performed by
MSTable.average_duplicates (ms2cbioportal.py line 243): pandas
DataFrames have no attribute nanmean, so evaluating
self.df[col].nanmean(axis=1) raises AttributeError. -/
def nanmeanCall (_sub : Table) : Except PdError (List Cell) :=
  .error .attributeError

/-- The per-duplicated-label loop of MSTable.average_duplicates: each
iteration evaluates the nanmean call on the columns sharing the label
and would store the result. -/
def collapseLoop (t : Table) : List String → Except PdError Table
  | [] => .ok []
  | l :: ls => do
      let v ← nanmeanCall (t.filter (fun c => c.1 == l))
      let rest ← collapseLoop t ls
      pure ((l, v) :: rest)

/-- Duplicate Collapser of the class-based revision.  Embeds
MSTable.average_duplicates (ms2cbioportal.py lines 227 to 245): same
partition into singleton and duplicated labels as average_duplicates,
but the averaging step goes through the nanmean call. -/
def msTable_average_duplicates (t : Table) : Except PdError Table := do
  let nondup := t.filter (fun c => countLabel t c.1 == 1)
  let averaged ← collapseLoop t (dupLabels t)
  pure (nondup ++ averaged)

/-- Avogadro constant as used by MSTable.proteomic_ruler: 6.022e23. -/
def avogadro : ℚ := 6022 * 10 ^ 20

/-- DNA mass constant used by MSTable.proteomic_ruler: 6.5e-12. -/
def dnaMass : ℚ := 65 / 10 ^ 13

/-- First segment of the row label before the bar: ind.split('|')[0]. -/
def firstBarSeg (s : String) : String :=
  (pySplit '|' s).headD ""

/-- np.nanmin(df.values) < 0: the table holds at least one finite
negative value (NaN cells are ignored by nanmin). -/
def hasNegative (t : Table) : Bool :=
  t.any (fun r => r.2.any (fun c =>
    match c with
    | some q => decide (q < 0)
    | none => false))

/-- Column-wise sums over the rows whose index label contains HIST:
df[df.index.to_series().str.contains('HIST', na=False)].sum().  The
pandas sum skips missing values and an empty sum is 0. -/
def histRow (t : Table) : List ℚ :=
  (List.range ((t.head?.map (fun r => r.2.length)).getD 0)).map (fun j =>
    ((t.filter (fun r => strContains r.1 "HIST")).map (fun r =>
      (((r.2.get? j).bind id)).getD 0)).sum)

/-- One output cell of the proteomic ruler:
value / histone-sum * (avogadro / molar-mass) * dna-mass.  A missing
input value, a row gene absent from the molar-mass lookup, and the
non-finite results of dividing by a zero histone sum or a zero molar
mass are all modelled as missing. -/
def rulerCell (mm : String → Option ℚ) (lab : String) (h : ℚ) (v : Cell) : Cell :=
  match v, mm (firstBarSeg lab) with
  | some x, some m =>
      if h = 0 ∨ m = 0 then none
      else some (x / h * (avogadro / m) * dnaMass)
  | _, _ => none

/-- Copy-number ruler.  Embeds MSTable.proteomic_ruler
(ms2cbioportal.py lines 181 to 225) on a row-indexed table: first the
negative-value check raising ValueError, then the Wisniewski formula
applied row- and column-wise.  The molar-mass lookup loaded from the
pickle file is passed as a function.  The Python method mutates
self.df only after the check, so on error no output table exists and
the table state is unchanged; the embedding returns the new table in
the ok case only. -/
def proteomic_ruler (mm : String → Option ℚ) (t : Table) : Except PdError Table :=
  if hasNegative t then .error .negativeValue
  else
    .ok (t.map (fun r =>
      (r.1, (r.2.zip (histRow t)).map (fun p => rulerCell mm r.1 p.2 p.1))))

/-- Is the character an uppercase letter A to Z, the character class
of the re.sub pattern used on modification sites. -/
def isUpperAZ (c : Char) : Bool := decide ('A' ≤ c) && decide (c ≤ 'Z')

/-- Insert an underscore before every maximal run of uppercase
letters: re.sub('[A-Z]+', lambda m: underscore + m.group(0), s).  The
Boolean argument records whether the previous character was inside an
uppercase run. -/
def markRuns : Bool → List Char → List Char
  | _, [] => []
  | prevUp, c :: cs =>
    if isUpperAZ c then
      if prevUp then c :: markRuns true cs
      else '_' :: c :: markRuns true cs
    else c :: markRuns false cs

/-- Site build-up of the Identifier Builder for modification tables:
uppercase the site string, insert a separator before every uppercase
run, and drop the first character (the string slice [1:]). -/
def ptmBuild (site : String) : String :=
  String.mk ((markRuns false (site.data.map Char.toUpper)).drop 1)

/-- Identifier Builder for unmodified rows: g + bar + g.  Embeds
annotate_gene (cbio_proteomics.py lines 27 to 29), the gene branch of
CDAPTable.format_genes and MaxQuantProteomeTable.format_genes. -/
def annotate_gene_id (g : String) : String := g ++ "|" ++ g

/-- Identifier Builder of load_transform_ptm (cbio_maxquant.py line
50) and MaxQuantPTMTable.format_genes: gene, bar, gene, underscore,
PTM class letter, amino acid, position. -/
def mq_ptm_id (pfx g aa pos : String) : String :=
  g ++ "|" ++ g ++ "_" ++ pfx ++ aa ++ pos

/-- Site extraction of CDAPTable.format_genes: ph.split(':')[1]; none
models the IndexError on a malformed Phosphosite field. -/
def cdap_ptm_site (ph : String) : Option String :=
  (pySplit ':' ph).get? 1

/-- Identifier Builder of the PTM branch of CDAPTable.format_genes
(ms2cbioportal.py lines 351 to 386). -/
def cdap_ptm_id (ptmType g ph : String) : Option String :=
  (cdap_ptm_site ph).map (fun site =>
    g ++ "|" ++ g ++ "_" ++ ptmType ++ ptmBuild site)

/-- Accession-to-gene lookup built by annotate_ptm from the
annotation file: drop_duplicates('Protein') keeps the first record per
accession, then dict(zip(Protein, Gene)); the composition makes the
first occurrence win. -/
def annoLookup (records : List (String × String)) (k : String) : Option String :=
  (records.find? (fun r => r.1 == k)).map (fun r => r.2)

/-- Row identifier produced by annotate_ptm (cbio_proteomics.py lines
32 to 61) for one index entry: look the accession (the part of the
index entry before the first dot) up in the annotation mapping, parse
the modification site (the part after the first colon), and build
gene, bar, gene, underscore, PTM class letter, rewritten site; if the
lookup raises KeyError or the site parse raises IndexError, the whole
identifier is the fixed string NA, bar, NA. -/
def annotate_ptm_id (anno : String → Option String) (pfx item : String) : String :=
  match anno ((pySplit '.' item).headD ""), (pySplit ':' item).get? 1 with
  | some g, some site => g ++ "|" ++ g ++ "_" ++ (pfx ++ ptmBuild site)
  | _, _ => "NA|NA"

/-- Characters of a Row Identifier before its first bar. -/
def barLeft (s : String) : List Char :=
  s.data.takeWhile (fun c => c != '|')

/-- Characters of a Row Identifier after its first bar. -/
def barRight (s : String) : List Char :=
  (s.data.dropWhile (fun c => c != '|')).drop 1

/-- The left segment around the first bar equals the prefix of the
right segment of the same length. -/
def halvesOK (s : String) : Prop :=
  barLeft s = (barRight s).take (barLeft s).length

/-- The string contains no bar character. -/
def noBar (s : String) : Prop := '|' ∉ s.data

instance (s : String) : Decidable (halvesOK s) := by
  unfold halvesOK
  infer_instance

instance (s : String) : Decidable (noBar s) := by
  unfold noBar
  infer_instance

/-- Result of np.log2 on one linear-scale value: a finite real for a
positive input, negative infinity for a zero input, NaN for a
negative input. -/
inductive Log2Out where
  | val (r : ℝ)
  | neginf
  | nan

/-- np.log2 applied to one cell value, with the IEEE special cases of
the zero and negative inputs made explicit. -/
noncomputable def npLog2 (x : ℚ) : Log2Out :=
  if 0 < x then .val (Real.logb 2 (x : ℝ))
  else if x = 0 then .neginf
  else .nan

/-- df.replace([np.inf, -np.inf], np.nan) applied after the log:
infinities become NaN, and NaN is the pandas missing marker, so both
non-finite outcomes end as missing. -/
def replaceNonfinite : Log2Out → Option ℝ
  | .val r => some r
  | .neginf => none
  | .nan => none

/-- Value Transformer of the cdap_precursor_area pipeline.  Embeds the
precursor_area branch of load_transform_data (cbio_proteomics.py
lines 18 to 23): df = np.log2(df[new_cols]) followed by
df.replace([np.inf, -np.inf], np.nan), applied cell-wise. -/
noncomputable def precursor_area_transform (x : ℚ) : Option ℝ :=
  replaceNonfinite (npLog2 x)

/-- File-system events performed by the command-line driver. -/
inductive Ev where
  | readF (name : String)
  | writeF (name : String)
  deriving DecidableEq, Repr

/-- Errors raised by the command-line driver. -/
inductive RunError where
  /-- RuntimeError raised on a partially supplied modification
  argument set. -/
  | partialPtmArgs
  deriving DecidableEq, Repr

/-- The argparse namespace of cbio_proteomics.py: required string
arguments, and the three optional modification arguments which default
to None. -/
structure CliArgs where
  proteome_files : String
  ptm_files : Option String
  ptm_pipeline : Option String
  ptm_pfxs : Option String
  anno_file : String
  output_file : String
  meta_file : String

/-- Python truthiness of an optional string argument: None and the
empty string are falsy. -/
def truthy : Option String → Bool
  | some s => !(s == "")
  | none => false

/-- all(ptm_params) in main: all three modification arguments are
truthy. -/
def allPtmSet (a : CliArgs) : Bool :=
  truthy a.ptm_files && truthy a.ptm_pipeline && truthy a.ptm_pfxs

/-- any(ptm_params) in main: at least one modification argument is
truthy. -/
def anyPtmSet (a : CliArgs) : Bool :=
  truthy a.ptm_files || truthy a.ptm_pipeline || truthy a.ptm_pfxs

/-- File-access trace and outcome of main (cbio_proteomics.py lines
93 to 116).  The proteome loop runs first and reads every proteome
file; only then are the modification arguments inspected: with all
three set, each PTM file and the annotation file are read and the
output and meta files written; with some but not all set, RuntimeError
is raised; with none set, the combined proteome table is written. -/
def mainRun (a : CliArgs) : List Ev × Except RunError Unit :=
  let protReads := (pySplit ',' a.proteome_files).map Ev.readF
  if allPtmSet a then
    let ptmReads :=
      (((pySplit ',' (a.ptm_files.getD "")).zip
          (pySplit ',' (a.ptm_pfxs.getD ""))).map
        (fun p => [Ev.readF p.1, Ev.readF a.anno_file])).flatten
    (protReads ++ ptmReads ++ [Ev.writeF a.output_file, Ev.writeF a.meta_file],
      .ok ())
  else if anyPtmSet a then
    (protReads, .error .partialPtmArgs)
  else
    (protReads ++ [Ev.writeF a.output_file, Ev.writeF a.meta_file], .ok ())

/-- A concrete run configuration where only the PTM file list is
supplied among the three modification arguments. -/
def exArgs : CliArgs :=
  ⟨"p.txt", some "m.txt", none, none, "a.tsv", "o.tsv", "meta.txt"⟩

/-- The per-column label count agrees with the count of the label in
the label list of the table. -/
theorem countLabel_eq_count (t : Table) (l : String) :
    countLabel t l = (t.map (fun c => c.1)).count l := by
  unfold countLabel
  rw [List.count, List.countP_map]
  rfl

/-- Splitting behaviour of takeWhile and dropWhile at the first bar
when the leading block is bar-free. -/
theorem takeWhile_bar_append (g r : List Char) (h : '|' ∉ g) :
    (g ++ '|' :: r).takeWhile (fun c => c != '|') = g
    ∧ (g ++ '|' :: r).dropWhile (fun c => c != '|') = '|' :: r := by
  induction g with
  | nil => constructor <;> simp [List.takeWhile, List.dropWhile]
  | cons c cs ih =>
    have hc : (c != '|') = true := by
      simp only [bne_iff_ne, ne_eq]
      intro e
      exact h (by simp [e])
    obtain ⟨h1, h2⟩ := ih (fun hm => h (List.mem_cons_of_mem _ hm))
    constructor
    · simp only [List.cons_append, List.takeWhile_cons, hc, if_true, h1]
    · simp only [List.cons_append, List.dropWhile_cons, hc, if_true, h2]

/-- Any string of the shape g, bar, g, possible suffix with a bar-free
g satisfies the half-prefix property. -/
theorem halvesOK_of_data (s : String) (g r : List Char)
    (hs : s.data = g ++ '|' :: (g ++ r)) (h : '|' ∉ g) : halvesOK s := by
  obtain ⟨h1, h2⟩ := takeWhile_bar_append g (g ++ r) h
  unfold halvesOK barLeft barRight
  rw [hs, h1, h2]
  simp [List.take_left]

/-- C1: after the maxquant_proteome Row Filter runs, no surviving row
satisfies any drop predicate: its protein-ID field (when present)
matches neither REV nor CON, its gene-name field is not null, and its
Q-value is present and strictly below 0.05. -/
theorem clean_rows_no_drop_predicate (rows : List MQProteomeRow)
    (r : MQProteomeRow) (hmem : r ∈ clean_rows rows) :
    (∀ s, r.protein_ids = some s →
      strContains s "REV" = false ∧ strContains s "CON" = false)
    ∧ r.gene_names ≠ none
    ∧ ∃ q, r.q_value = some q ∧ q < 1 / 20 := by
  unfold clean_rows at hmem
  obtain ⟨hmem2, hq⟩ := List.mem_filter.mp hmem
  obtain ⟨hmem1, hg⟩ := List.mem_filter.mp hmem2
  obtain ⟨_, hrev⟩ := List.mem_filter.mp hmem1
  refine ⟨?_, ?_, ?_⟩
  · intro s hs
    rw [hs] at hrev
    simp only [revConDrop, Bool.not_eq_true'] at hrev
    exact ⟨by simpa using (Bool.or_eq_false_iff.mp hrev).1,
      by simpa using (Bool.or_eq_false_iff.mp hrev).2⟩
  · intro hnone
    rw [hnone] at hg
    simp at hg
  · cases hqv : r.q_value with
    | none => rw [hqv] at hq; simp [qKeep] at hq
    | some q =>
      rw [hqv] at hq
      simp only [qKeep, decide_eq_true_eq] at hq
      exact ⟨q, rfl, hq⟩

/-- Witness for C1 at a concrete table: the row with protein ID P1,
gene TP53 and Q-value 0.01 survives the filter alongside a decoy row,
a null-gene row and a high-Q row, and the theorem applies to it. -/
theorem clean_rows_no_drop_predicate_witness :
    (∀ s, (MQProteomeRow.mk (some "P1") (some "TP53") (some (1 / 100))).protein_ids = some s →
      strContains s "REV" = false ∧ strContains s "CON" = false)
    ∧ (MQProteomeRow.mk (some "P1") (some "TP53") (some (1 / 100))).gene_names ≠ none
    ∧ ∃ q, (MQProteomeRow.mk (some "P1") (some "TP53") (some (1 / 100))).q_value = some q
        ∧ q < 1 / 20 :=
  clean_rows_no_drop_predicate
    [MQProteomeRow.mk (some "REV_1") (some "G1") (some 0),
     MQProteomeRow.mk (some "P1") (some "TP53") (some (1 / 100)),
     MQProteomeRow.mk (some "P2") none (some 0),
     MQProteomeRow.mk (some "P3") (some "EGFR") (some (1 / 2))]
    (MQProteomeRow.mk (some "P1") (some "TP53") (some (1 / 100)))
    (by
      simp only [clean_rows, List.filter, revConDrop, qKeep, strContains,
        listContainsSub, listStartsWith, Option.isSome]
      norm_num)

/-- C2: for every table and every sample-column regular expression, if
zero column names match the expression, the Pattern Column Selector
fails with the no-matching-columns error instead of returning an empty
table. -/
theorem clean_columns_error_on_no_match (regex : String → Bool) (t : Table)
    (hnone : ∀ c ∈ t, regex c.1 = false) :
    clean_columns regex t = .error .noMatchingColumns := by
  unfold clean_columns
  have hfil : t.filter (fun c => regex c.1) = [] :=
    List.filter_eq_nil_iff.mpr (by simpa using hnone)
  simp [hfil]

/-- Witness for C2 at a concrete table and regex predicate. -/
theorem clean_columns_error_on_no_match_witness :
    clean_columns (fun s => strContains s "Intensity")
      [("Protein IDs", [some 1]), ("Q-value", [some 0])]
      = .error .noMatchingColumns :=
  clean_columns_error_on_no_match _ _ (by decide)

/-- C4 counterexample: on the two-row table with duplicate columns A
holding [1, 3] and [2, Missing], the collapsed column is not the
claimed [2.5, 3]: the row-1 mean of 1 and 2 is 1.5. -/
theorem average_duplicates_pair_counterexample :
    average_duplicates [("A", [some 1, some 3]), ("A", [some 2, none])]
      ≠ [("A", [some (5 / 2), some 3])] := by
  simp [average_duplicates, dupLabels, collapseCol, countLabel, nRows,
    show List.range 2 = [0, 1] from rfl]
  norm_num

/-- C4 amended: on the two-row table with duplicate columns A holding
[1, 3] and [2, Missing], the Duplicate Collapser produces the single
column A with value 1.5 for row 1 (the mean of 1 and 2) and 3 for row
2 (the mean over the one non-missing value). -/
theorem average_duplicates_pair :
    average_duplicates [("A", [some 1, some 3]), ("A", [some 2, none])]
      = [("A", [some (3 / 2), some 3])] := by
  simp [average_duplicates, dupLabels, collapseCol, countLabel, nRows,
    show List.range 2 = [0, 1] from rfl]
  norm_num

/-- C5: the Duplicate Collapser is the identity on every table whose
column labels are already all distinct: the columns come back
unchanged and in their original order. -/
theorem average_duplicates_nodup_id (t : Table)
    (h : (t.map (fun c => c.1)).Nodup) : average_duplicates t = t := by
  have hcount : ∀ c ∈ t, countLabel t c.1 = 1 := by
    intro c hc
    rw [countLabel_eq_count]
    exact List.count_eq_one_of_mem h (List.mem_map_of_mem _ hc)
  have hnon : t.filter (fun c => countLabel t c.1 == 1) = t :=
    List.filter_eq_self.mpr (fun c hc => by simp [hcount c hc])
  have hdup : t.filter (fun c => decide (2 ≤ countLabel t c.1)) = [] :=
    List.filter_eq_nil_iff.mpr (fun c hc => by simp [hcount c hc])
  unfold average_duplicates dupLabels
  rw [hnon, hdup]
  simp

/-- Witness for C5 at a concrete duplicate-free table. -/
theorem average_duplicates_nodup_id_witness :
    average_duplicates [("A", [some 1, none]), ("B", [some 2, some 3])]
      = [("A", [some 1, none]), ("B", [some 2, some 3])] :=
  average_duplicates_nodup_id _ (by decide)

/-- C10: the class-based MSTable.average_duplicates raises
AttributeError for every table containing a duplicated column label,
because its averaging loop calls the nonexistent DataFrame method
nanmean, and returns the table unchanged when all labels are distinct;
hence that revision never actually averages any group. -/
theorem msTable_average_duplicates_spec (t : Table) :
    ((t.map (fun c => c.1)).Nodup → msTable_average_duplicates t = .ok t)
    ∧ (¬ (t.map (fun c => c.1)).Nodup →
        msTable_average_duplicates t = .error .attributeError) := by
  constructor
  · intro h
    have hcount : ∀ c ∈ t, countLabel t c.1 = 1 := by
      intro c hc
      rw [countLabel_eq_count]
      exact List.count_eq_one_of_mem h (List.mem_map_of_mem _ hc)
    have hnon : t.filter (fun c => countLabel t c.1 == 1) = t :=
      List.filter_eq_self.mpr (fun c hc => by simp [hcount c hc])
    have hdup : t.filter (fun c => decide (2 ≤ countLabel t c.1)) = [] :=
      List.filter_eq_nil_iff.mpr (fun c hc => by simp [hcount c hc])
    unfold msTable_average_duplicates dupLabels
    rw [hnon, hdup]
    simp [collapseLoop]
  · intro h
    have hne : dupLabels t ≠ [] := by
      intro hnil
      apply h
      unfold dupLabels at hnil
      have hmapnil : (t.filter (fun c => decide (2 ≤ countLabel t c.1))).map
          (fun c => c.1) = [] := (List.dedup_eq_nil _).mp hnil
      have hfil : t.filter (fun c => decide (2 ≤ countLabel t c.1)) = [] :=
        List.map_eq_nil_iff.mp hmapnil
      have hle : ∀ c ∈ t, countLabel t c.1 ≤ 1 := by
        intro c hc
        have h2 := List.filter_eq_nil_iff.mp hfil c hc
        simp only [decide_eq_true_eq] at h2
        omega
      refine List.nodup_iff_count_le_one.mpr (fun a => ?_)
      by_cases ha : a ∈ t.map (fun c => c.1)
      · obtain ⟨c, hc, hca⟩ := List.mem_map.mp ha
        rw [← hca, ← countLabel_eq_count]
        exact hle c hc
      · rw [List.count_eq_zero_of_not_mem ha]
        omega
    obtain ⟨l, ls, hls⟩ := List.exists_cons_of_ne_nil hne
    unfold msTable_average_duplicates
    rw [hls]
    simp [collapseLoop, nanmeanCall, Bind.bind, Except.bind]

/-- Witness for C10: a duplicate-free table comes back unchanged, and
a table with a duplicated label A raises the AttributeError. -/
theorem msTable_average_duplicates_spec_witness :
    msTable_average_duplicates [("A", [some 1]), ("B", [some 2])]
      = .ok [("A", [some 1]), ("B", [some 2])]
    ∧ msTable_average_duplicates [("A", [some 1]), ("A", [some 2])]
      = .error .attributeError :=
  ⟨(msTable_average_duplicates_spec _).1 (by decide),
   (msTable_average_duplicates_spec _).2 (by decide)⟩

/-- C3: for every molar-mass lookup and every table containing at
least one negative value anywhere, the copy-number ruler fails with
the negative-value domain error and produces no output table; for
tables with no negative value the error branch is unreachable and an
output table is produced. -/
theorem proteomic_ruler_negative_check (mm : String → Option ℚ) (t : Table) :
    (hasNegative t = true → proteomic_ruler mm t = .error .negativeValue)
    ∧ (hasNegative t = false → ∃ t', proteomic_ruler mm t = .ok t') := by
  constructor
  · intro h
    simp [proteomic_ruler, h]
  · intro h
    exact ⟨t.map (fun r =>
        (r.1, (r.2.zip (histRow t)).map (fun p => rulerCell mm r.1 p.2 p.1))),
      by simp [proteomic_ruler, h]⟩

/-- Witness for C3: a one-cell negative table raises the error, and
the same table with a positive value passes the check. -/
theorem proteomic_ruler_negative_check_witness :
    proteomic_ruler (fun _ => none) [("G|G", [some (-1)])]
      = .error .negativeValue
    ∧ ∃ t', proteomic_ruler (fun _ => none) [("G|G", [some 1])] = .ok t' :=
  ⟨(proteomic_ruler_negative_check (fun _ => none) _).1 (by decide),
   (proteomic_ruler_negative_check (fun _ => none) _).2 (by decide)⟩

/-- C7: every Identifier Builder is a deterministic total function in
this embedding (same row, same identifier), and on well-formed rows
(a bar-free gene symbol, and for the lookup-based builder a bar-free
looked-up gene) every identifier it produces splits around the first
bar into a left segment that equals the prefix of the right segment of
the same length. -/
theorem identifier_builder_halves
    (g aa pos pfx ptmType ph item : String) (anno : String → Option String)
    (hg : noBar g) :
    halvesOK (annotate_gene_id g)
    ∧ halvesOK (mq_ptm_id pfx g aa pos)
    ∧ (∀ s, cdap_ptm_id ptmType g ph = some s → halvesOK s)
    ∧ ((∀ g', anno ((pySplit '.' item).headD "") = some g' → noBar g') →
        halvesOK (annotate_ptm_id anno pfx item)) := by
  refine ⟨?_, ?_, ?_, ?_⟩
  · exact halvesOK_of_data _ g.data [] (by simp [annotate_gene_id, String.data_append]) hg
  · exact halvesOK_of_data _ g.data
      ('_' :: (pfx.data ++ aa.data ++ pos.data))
      (by simp [mq_ptm_id, String.data_append]) hg
  · intro s hsome
    cases hsite : cdap_ptm_site ph with
    | none => simp [cdap_ptm_id, hsite] at hsome
    | some site =>
      simp only [cdap_ptm_id, hsite, Option.map_some', Option.some.injEq] at hsome
      exact halvesOK_of_data _ g.data
        ('_' :: (ptmType.data ++ (ptmBuild site).data))
        (by rw [← hsome]; simp [String.data_append]) hg
  · intro hanno
    unfold annotate_ptm_id
    cases ha : anno ((pySplit '.' item).headD "") with
    | none =>
      cases hs : (pySplit ':' item).get? 1 <;>
        · show halvesOK "NA|NA"
          decide
    | some g' =>
      cases hs : (pySplit ':' item).get? 1 with
      | none =>
        show halvesOK "NA|NA"
        decide
      | some site =>
        exact halvesOK_of_data _ g'.data
          ('_' :: ((pfx ++ ptmBuild site)).data)
          (by simp [String.data_append]) (hanno g' ha)

/-- Witness for C7 at the bar-free gene TP53 and a concrete
modification row. -/
theorem identifier_builder_halves_witness :
    halvesOK (annotate_gene_id "TP53")
    ∧ halvesOK (mq_ptm_id "p" "TP53" "S" "15") := by
  have h := identifier_builder_halves "TP53" "S" "15" "p" "P" "x:s15"
    "NP_1.1:s15" (fun _ => none) (by decide)
  exact ⟨h.1, h.2.1⟩

/-- C9: whenever the accession-to-gene lookup fails (KeyError) or the
modification-site parse fails (IndexError) for a row, annotate_ptm
assigns that row the single fixed identifier NA, bar, NA, even when
the other field did resolve; all failing rows therefore share one
identical identifier. -/
theorem annotate_ptm_failure_collapses (anno : String → Option String)
    (pfx item : String)
    (h : anno ((pySplit '.' item).headD "") = none
      ∨ (pySplit ':' item).get? 1 = none) :
    annotate_ptm_id anno pfx item = "NA|NA" := by
  unfold annotate_ptm_id
  cases ha : anno ((pySplit '.' item).headD "") with
  | none => cases hs : (pySplit ':' item).get? 1 <;> rfl
  | some g' =>
    cases hs : (pySplit ':' item).get? 1 with
    | none => rfl
    | some site =>
      rw [ha, hs] at h
      rcases h with h | h <;> simp at h

/-- Witness for C9: the site parse of the index entry succeeds but the
lookup misses, and the identifier still collapses to NA, bar, NA. -/
theorem annotate_ptm_failure_collapses_witness :
    annotate_ptm_id (fun _ => none) "p" "NP_1.1:s15" = "NA|NA" :=
  annotate_ptm_failure_collapses (fun _ => none) "p" "NP_1.1:s15" (Or.inl rfl)

/-- C6: the cdap_precursor_area Value Transformer applies log2 to
each value: an exact power of two maps to its integer exponent, and
every zero or negative input maps to the missing marker, never to a
surviving minus-infinity or NaN. -/
theorem precursor_area_transform_spec :
    (∀ k : ℤ, precursor_area_transform ((2 : ℚ) ^ k) = some ((k : ℤ) : ℝ))
    ∧ ∀ x : ℚ, x ≤ 0 → precursor_area_transform x = none := by
  constructor
  · intro k
    have hpos : (0 : ℚ) < 2 ^ k := zpow_pos (by norm_num) k
    unfold precursor_area_transform npLog2
    rw [if_pos hpos]
    simp only [replaceNonfinite, Option.some.injEq]
    rw [show (((2 : ℚ) ^ k : ℚ) : ℝ) = (2 : ℝ) ^ k by push_cast; ring]
    rw [show ((2 : ℝ) ^ k) = (2 : ℝ) ^ ((k : ℤ) : ℝ) from
      (Real.rpow_intCast 2 k).symm]
    exact Real.logb_rpow (by norm_num) (by norm_num)
  · intro x hx
    unfold precursor_area_transform npLog2
    rw [if_neg (not_lt.mpr hx)]
    by_cases h0 : x = 0
    · rw [if_pos h0]
      rfl
    · rw [if_neg h0]
      rfl

/-- Witness for C6: two to the third maps to the exponent three, and
the negative input maps to missing. -/
theorem precursor_area_transform_spec_witness :
    precursor_area_transform ((2 : ℚ) ^ (3 : ℤ)) = some (((3 : ℤ) : ℤ) : ℝ)
    ∧ precursor_area_transform (-1) = none :=
  ⟨precursor_area_transform_spec.1 3,
   precursor_area_transform_spec.2 (-1) (by norm_num)⟩

/-- C8 counterexample: with only the PTM file list supplied among the
modification arguments, the run does end in the configuration error,
but the proteome input file has already been read before the error is
raised, so the trace of reads at the error is not empty. -/
theorem main_reads_before_config_error :
    (mainRun exArgs).2 = .error .partialPtmArgs
    ∧ (mainRun exArgs).1 = [Ev.readF "p.txt"]
    ∧ ([Ev.readF "p.txt"] : List Ev) ≠ [] :=
  ⟨rfl, rfl, by simp⟩

/-- C8 amended: whenever the modification-related arguments are
partially but not fully supplied, main rejects the run with the
RuntimeError, but only after reading the proteome input files; no PTM
file and no annotation file is read before the error. -/
theorem main_partial_ptm_rejected (a : CliArgs)
    (hsome : anyPtmSet a = true) (hnotall : allPtmSet a = false) :
    mainRun a = ((pySplit ',' a.proteome_files).map Ev.readF,
      .error .partialPtmArgs) := by
  unfold mainRun
  rw [hnotall, hsome]
  simp

/-- Witness for C8 at the concrete partially supplied argument set. -/
theorem main_partial_ptm_rejected_witness :
    mainRun exArgs = ([Ev.readF "p.txt"], .error .partialPtmArgs) := by
  rw [main_partial_ptm_rejected exArgs (by decide) (by decide)]
  rfl

end CPTAC
